import Mathlib

/-
Verification of the eRob CANopenNode demo (src/example/pp_mode_control.c and
src/example/quick_scan.c) against its natural-language specification.

The C sources are shallowly embedded: pure helpers become Lean functions on
Nat (with explicit truncation modulo 2 ^ w where a C integer type of width w
is written), the line-oriented EDS parser becomes a fold over a list of lines
(each line a list of characters), and the socket-facing transaction functions
become functions of the sequence of CAN frames read from the bus, or of an
explicit environment recording the outcome of every bus interaction.  sscanf
conversions are modelled as maximal-munch hex / decimal scans with C
truncation to the destination width; a failed conversion leaves the target
variable unchanged, as sscanf does.
-/

namespace ERobDemo

/-- Entry of the simplified object dictionary, mirroring object_dict_entry_t
(index : uint16_t, subindex : uint8_t, data_size : uint8_t). -/
structure object_dict_entry_t where
  index : Nat
  subindex : Nat
  data_size : Nat
deriving DecidableEq, Repr

/-- Embedding of get_data_type_size from pp_mode_control.c: byte size chosen
by the EDS data-type code (the source comments name the types: 0x0001
BOOLEAN, 0x0002 INTEGER8, 0x0003 INTEGER16, 0x0004 INTEGER32, 0x0005
UNSIGNED8, 0x0006 UNSIGNED16, 0x0007 UNSIGNED32, 0x0008 REAL32, default 2). -/
def get_data_type_size (data_type : Nat) : Nat :=
  if data_type = 0x0001 then 1
  else if data_type = 0x0002 then 1
  else if data_type = 0x0003 then 2
  else if data_type = 0x0004 then 4
  else if data_type = 0x0005 then 1
  else if data_type = 0x0006 then 2
  else if data_type = 0x0007 then 4
  else if data_type = 0x0008 then 8
  else 2

/-- Hexadecimal digit test, as recognised by sscanf %x. -/
def isHexDigitChar (c : Char) : Bool :=
  (('0' ≤ c) && (c ≤ '9')) || (('a' ≤ c) && (c ≤ 'f')) || (('A' ≤ c) && (c ≤ 'F'))

/-- Value of a hexadecimal digit. -/
def hexDigitVal (c : Char) : Nat :=
  if ('0' ≤ c) && (c ≤ '9') then c.toNat - '0'.toNat
  else if ('a' ≤ c) && (c ≤ 'f') then c.toNat - 'a'.toNat + 10
  else if ('A' ≤ c) && (c ≤ 'F') then c.toNat - 'A'.toNat + 10
  else 0

/-- Decimal digit test. -/
def isDecDigitChar (c : Char) : Bool := ('0' ≤ c) && (c ≤ '9')

/-- Longest run of hexadecimal digits at the front of the character list,
accumulated into a number; returns none when there is no digit (a failed
sscanf conversion assigns nothing). -/
def takeHexDigits (acc : Nat) (seen : Bool) : List Char → Option Nat × List Char
  | [] => (if seen then some acc else none, [])
  | c :: cs =>
    if isHexDigitChar c then takeHexDigits (acc * 16 + hexDigitVal c) true cs
    else (if seen then some acc else none, c :: cs)

/-- Longest run of decimal digits at the front of the character list. -/
def takeDecDigits (acc : Nat) (seen : Bool) : List Char → Option Nat × List Char
  | [] => (if seen then some acc else none, [])
  | c :: cs =>
    if isDecDigitChar c then takeDecDigits (acc * 10 + hexDigitVal c) true cs
    else (if seen then some acc else none, c :: cs)

/-- Drop leading white space, as an sscanf numeric conversion does. -/
def dropSpaces : List Char → List Char
  | [] => []
  | c :: cs => if c = ' ' || c = '\t' then dropSpaces cs else c :: cs

/-- Model of an sscanf %hx conversion: skip white space, accept an optional
0x / 0X marker when a hex digit follows, read the digit run, truncate to the
unsigned short destination. -/
def scanHex (cs : List Char) : Option Nat × List Char :=
  let cs := dropSpaces cs
  let cs :=
    match cs with
    | '0' :: x :: d :: rest =>
      if (x = 'x' || x = 'X') && isHexDigitChar d then d :: rest else cs
    | _ => cs
  let (v?, rest) := takeHexDigits 0 false cs
  (v?.map (· % 2 ^ 16), rest)

/-- Model of an sscanf %hhu conversion: skip white space, read the decimal
digit run, truncate to the unsigned char destination. -/
def scanDec (cs : List Char) : Option Nat × List Char :=
  let (v?, rest) := takeDecDigits 0 false (dropSpaces cs)
  (v?.map (· % 2 ^ 8), rest)

/-- List begins with the given pattern. -/
def listStartsWith : List Char → List Char → Bool
  | [], _ => true
  | _ :: _, [] => false
  | p :: ps, c :: cs => p = c && listStartsWith ps cs

/-- Pattern occurs somewhere in the list (the strstr test of the source). -/
def containsSub (pat : List Char) : List Char → Bool
  | [] => listStartsWith pat []
  | c :: cs => listStartsWith pat (c :: cs) || containsSub pat cs

/-- Characters of the line strictly before the first occurrence of the given
character: the source writes 0 over the first closing bracket, so the section
name is everything between the opening bracket and that point. -/
def takeUntilChar (stop : Char) : List Char → List Char
  | [] => []
  | c :: cs => if c = stop then [] else c :: takeUntilChar stop cs

/-- Parser state of parse_eds_file: the mutable locals current_index,
current_subindex, current_data_type, in_object, together with the growing
object_dict array (capacity 100). -/
structure ParseState where
  current_index : Nat
  current_subindex : Nat
  current_data_type : Nat
  in_object : Bool
  dict : List object_dict_entry_t
deriving Repr

/-- Initial parser state: the locals start at zero and the dictionary is
empty. -/
def initParseState : ParseState :=
  { current_index := 0, current_subindex := 0, current_data_type := 0,
    in_object := false, dict := [] }

/-- Model of the sscanf of a section name of the form hexindex-sub-decimal
(format %hxsub%hhu): the hex field, then the literal s-u-b, then the decimal
field; later fields are only assigned when everything before them matched. -/
def scanHexSub (cs : List Char) : Option Nat × Option Nat :=
  match scanHex cs with
  | (none, _) => (none, none)
  | (some idx, rest) =>
    if listStartsWith ['s', 'u', 'b'] rest then
      (some idx, (scanDec (rest.drop 3)).1)
    else (some idx, none)

/-- Test of the first branch of the fgets loop: the line opens a section
(first character an opening bracket and a closing bracket somewhere). -/
def isSectionHeader (line : List Char) : Bool :=
  (line.headD ' ' = '[') && containsSub [']'] line

/-- Test for the sub marker inside a section name. -/
def hasSubMarker (cs : List Char) : Bool := containsSub ['s', 'u', 'b'] cs

/-- Test of the DataType branch: inside an object and the line mentions
DataType= somewhere (the strstr test of the source). -/
def isDataTypeLine (st : ParseState) (line : List Char) : Bool :=
  st.in_object && containsSub "DataType=".toList line

/-- Test of the AccessType branch. -/
def isAccessTypeLine (st : ParseState) (line : List Char) : Bool :=
  st.in_object && containsSub "AccessType=".toList line

/-- Append condition of a completed entry: nonzero recorded data type and
room left in the 100-entry array. -/
def entryFits (st : ParseState) : Bool :=
  st.current_data_type > 0 && st.dict.length < 100

/-- One iteration of the fgets loop of parse_eds_file, processing a single
line (already stripped of the trailing newline, as the source does). -/
def processLine (st : ParseState) (line : List Char) : ParseState :=
  if isSectionHeader line then
    let object_id := takeUntilChar ']' (line.drop 1)
    if hasSubMarker object_id then
      let sc := scanHexSub object_id
      { st with
        current_index := sc.1.getD st.current_index,
        current_subindex := sc.2.getD st.current_subindex,
        in_object := true, current_data_type := 0 }
    else
      { st with
        current_index := ((scanHex object_id).1).getD st.current_index,
        current_subindex := 0,
        in_object := true, current_data_type := 0 }
  else if isDataTypeLine st line then
    let parsed :=
      if listStartsWith "DataType=0x".toList line then
        (scanHex (line.drop 11)).1
      else none
    let dt := parsed.getD st.current_data_type
    let dt := if st.current_index = 0x6040 then 0x0006 else dt
    { st with current_data_type := dt }
  else if isAccessTypeLine st line then
    let st' :=
      if entryFits st then
        { st with dict := st.dict ++
            [{ index := st.current_index, subindex := st.current_subindex,
               data_size := get_data_type_size st.current_data_type }] }
      else st
    { st' with in_object := false }
  else st

/-- Embedding of parse_eds_file: fold the line processor over the lines of
the EDS text and return the object dictionary it accumulated. -/
def parse_eds_file (lines : List (List Char)) : List object_dict_entry_t :=
  (lines.foldl processLine initParseState).dict

/-- Embedding of get_object_size: first matching dictionary entry wins,
otherwise the built-in fallback sizes (control word 2, operation mode 1,
profile parameters 4, default 4). -/
def get_object_size (dict : List object_dict_entry_t)
    (index subindex : Nat) : Nat :=
  match dict.find? (fun e => e.index = index && e.subindex = subindex) with
  | some e => e.data_size
  | none =>
    if index = 0x6040 then 2
    else if index = 0x6060 then 1
    else if index = 0x6081 || index = 0x6083 || index = 0x6084 then 4
    else 4

/-- CAN frame as the sources use it: identifier plus eight data bytes (the
sources always set can_dlc to 8; the data list of the model has the eight
bytes in order). -/
structure can_frame where
  can_id : Nat
  data : List Nat
deriving DecidableEq, Repr

/-- Byte i of a frame (0 past the end, matching the zero-filled array). -/
def can_frame.byte (f : can_frame) (i : Nat) : Nat := f.data.getD i 0

/-- Embedding of send_sdo_request from pp_mode_control.c: the frame written
to the socket for one request.  Parameters take the truncation of their C
types (uint16_t index, uint8_t subindex, uint32_t data); node is the
current_motor_id global. -/
def send_sdo_request (dict : List object_dict_entry_t)
    (node index subindex data : Nat) (is_write : Bool) : can_frame :=
  let index := index % 2 ^ 16
  let subindex := subindex % 2 ^ 8
  let data := data % 2 ^ 32
  let data_size := get_object_size dict index subindex
  if is_write then
    { can_id := 0x600 + node,
      data := [if data_size = 1 then 0x2F else if data_size = 2 then 0x2B else 0x23,
               index % 256, index / 256 % 256, subindex,
               data % 256, data / 2 ^ 8 % 256, data / 2 ^ 16 % 256, data / 2 ^ 24 % 256] }
  else
    { can_id := 0x600 + node,
      data := [0x40, index % 256, index / 256 % 256, subindex, 0, 0, 0, 0] }

/-- Little-endian 32-bit word assembled from bytes 4..7 of a frame, exactly
as the receive loops assemble *data. -/
def leWord (f : can_frame) : Nat :=
  f.byte 4 ||| (f.byte 5 <<< 8) ||| (f.byte 6 <<< 16) ||| (f.byte 7 <<< 24)

/-- Embedding of receive_sdo_response from pp_mode_control.c over the
sequence of frames read from the socket before the timeout: the int return
value paired with what was stored through the data out-parameter (none when
the function returns without writing it, as on abort and on timeout). -/
def receive_sdo_response (node : Nat) : List can_frame → Int × Option Nat
  | [] => (-1, none)
  | f :: rest =>
    if f.can_id = 0x580 + node then
      if f.byte 0 &&& 0xE0 = 0x40 then (0, some (leWord f))
      else if f.byte 0 &&& 0xE0 = 0x60 then (0, some 0)
      else if f.byte 0 &&& 0xE0 = 0x80 then (-1, none)
      else receive_sdo_response node rest
    else receive_sdo_response node rest

/-- Embedding of write_sdo: the request frame it sends and the status it
returns to its caller (the socket write is modelled as delivered; a 0 return
of the receive step is reported as 0, anything else as -1 with the same
printed no-response message for abort and timeout alike). -/
def write_sdo (dict : List object_dict_entry_t)
    (node index subindex data : Nat) (frames : List can_frame) :
    can_frame × Int :=
  (send_sdo_request dict node index subindex data true,
   if (receive_sdo_response node frames).1 < 0 then -1 else 0)

/-- Embedding of read_sdo: the request frame, the status returned, and the
value stored through the out-parameter. -/
def read_sdo (dict : List object_dict_entry_t)
    (node index subindex : Nat) (frames : List can_frame) :
    can_frame × Int × Option Nat :=
  let r := receive_sdo_response node frames
  (send_sdo_request dict node index subindex 0 false,
   if r.1 < 0 then -1 else 0, r.2)

/-- Embedding of send_sdo_request from quick_scan.c: always an upload
request. -/
def qs_send_sdo_request (node index subindex : Nat) : can_frame :=
  let index := index % 2 ^ 16
  let subindex := subindex % 2 ^ 8
  { can_id := 0x600 + node,
    data := [0x40, index % 256, index / 256 % 256, subindex, 0, 0, 0, 0] }

/-- Embedding of receive_sdo_response from quick_scan.c: only a matching
upload response (command byte masked with 0xE0 equal to 0x40) is accepted;
every other frame is skipped and polling continues until timeout. -/
def qs_receive_sdo_response (node : Nat) : List can_frame → Int × Option Nat
  | [] => (-1, none)
  | f :: rest =>
    if f.can_id = 0x580 + node then
      if f.byte 0 &&& 0xE0 = 0x40 then (0, some (leWord f))
      else qs_receive_sdo_response node rest
    else qs_receive_sdo_response node rest

/-- Default motor node ID (the MOTOR_NODE_ID configuration constant). -/
def MOTOR_NODE_ID : Nat := 2

/-- CiA402 motor device-type test of auto_detect_motor: the fixed set of
accepted device-type words. -/
def is_motor_device_type (t : Nat) : Bool :=
  t = 0x00020192 || t = 0x00020193 || t = 0x00020194 || t = 0x00020195

/-- Result of auto_detect_motor: the returned node ID, the detected_motor_id
global it leaves behind (0 when nothing was detected), and the list of node
IDs that were probed, in order. -/
structure DetectResult where
  ret : Nat
  detected_motor_id : Nat
  probed : List Nat
deriving DecidableEq, Repr

/-- Per-node outcome of the probe loop body of auto_detect_motor: the
device-type word of the first matching upload response received within the
200 ms window, or none when no such response arrived. -/
def probe_outcome (resp : Nat → Option Nat) (n : Nat) : Option Nat := resp n

/-- Loop of auto_detect_motor over the remaining candidate IDs: a responding
node whose device type is in the accepted set is returned immediately;
anything else moves on to the next candidate. -/
def detect_loop (resp : Nat → Option Nat) : List Nat → Option Nat × List Nat
  | [] => (none, [])
  | n :: rest =>
    match probe_outcome resp n with
    | some t =>
      if is_motor_device_type t then (some n, [n])
      else
        let d := detect_loop resp rest
        (d.1, n :: d.2)
    | none =>
      let d := detect_loop resp rest
      (d.1, n :: d.2)

/-- Embedding of auto_detect_motor: probe candidate node IDs 1..20 in
ascending order, return the first CiA402 match, or fall back to the default
MOTOR_NODE_ID with detected_motor_id left at 0. -/
def auto_detect_motor (resp : Nat → Option Nat) : DetectResult :=
  match detect_loop resp (List.range' 1 20) with
  | (some n, ps) => { ret := n, detected_motor_id := n, probed := ps }
  | (none, ps) => { ret := MOTOR_NODE_ID, detected_motor_id := 0, probed := ps }

/-- Request frame the probe loop builds for each candidate: an upload
request for the device-type object 0x1000 subindex 0. -/
def detect_probe_frame (n : Nat) : can_frame :=
  { can_id := 0x600 + n, data := [0x40, 0x00, 0x10, 0x00, 0, 0, 0, 0] }

/-- Bus-level event emitted by the drive state machine: an SDO write attempt
(with the success of its transaction), an SDO read attempt (with the value
obtained, none on failure), an NMT command, or a sleep of the given number
of microseconds. -/
inductive Ev where
  | sdoWrite (index subindex val : Nat) (ok : Bool)
  | sdoRead (index subindex : Nat) (result : Option Nat)
  | nmt (command node : Nat)
  | sleepUs (us : Nat)
deriving DecidableEq, Repr

/-- Motor resolution per revolution (MOTOR_RESOLUTION). -/
def MOTOR_RESOLUTION : Int := 524288

/-- Maximum allowed target position: two revolutions. -/
def MAX_POSITION : Int := MOTOR_RESOLUTION * 2

/-- Minimum allowed target position: minus two revolutions. -/
def MIN_POSITION : Int := -MOTOR_RESOLUTION * 2

/-- Conversion of a C int32_t value to the uint32_t argument of write_sdo
(two's complement, i.e. reduction modulo 2 ^ 32). -/
def u32ofInt (i : Int) : Nat := (i % (2 ^ 32 : Int)).toNat

/-- Status-word bit 12 test of the handshake (status_word & 0x1000). -/
def bit12_set (s : Nat) : Bool := s &&& 0x1000 != 0

/-- Outcome of every bus interaction execute_position_move performs, in
program order: the two position reads, the three write transactions, the
control-word read, and the two families of status-word polls (the k-th poll
of each family yields the given value, none when that read_sdo call fails). -/
structure MoveEnv where
  read_pos_before : Option Nat
  write_target_ok : Bool
  read_control_word : Option Nat
  write_set_ok : Bool
  status_ack_poll : Nat → Option Nat
  write_release_ok : Bool
  status_rel_poll : Nat → Option Nat
  read_pos_after : Option Nat

/-- Exit test of one status poll: the k-th read_sdo of the status word
succeeded and the polled condition holds on its value (a failed read keeps
polling, exactly as the source only tests the bit when read_sdo returned
0). -/
def poll_hit (status : Nat → Option Nat) (hit : Nat → Bool) (k : Nat) : Bool :=
  match status k with
  | some s => hit s
  | none => false

/-- Embedding of the while loops of steps 4 and 6 of execute_position_move:
timeout_count starts at count with fuel iterations left (50 - count); each
iteration reads the status word, breaks before sleeping when the hit test
succeeds on a successful read, and otherwise sleeps 100 ms and increments
the counter.  Returns the final timeout_count and the events of the loop. -/
def pollLoop (status : Nat → Option Nat) (hit : Nat → Bool) :
    Nat → Nat → Nat × List Ev
  | count, 0 => (count, [])
  | count, fuel + 1 =>
    if poll_hit status hit count then (count, [Ev.sdoRead 0x6041 0 (status count)])
    else
      let p := pollLoop status hit (count + 1) fuel
      (p.1, Ev.sdoRead 0x6041 0 (status count) :: Ev.sleepUs 100000 :: p.2)

/-- Embedding of execute_position_move: the int return value and the bus
events performed, for the given interaction outcomes.  Mirrors the source:
range check before any bus traffic, target-position write, control-word
read, read-modify-write setting bit 4, fatal 50-iteration acknowledgment
poll, bit-4 release write, non-fatal 50-iteration release poll, final
position check, success. -/
def execute_position_move (env : MoveEnv) (target_position : Int) :
    Int × List Ev :=
  if target_position > MAX_POSITION then (-1, [])
  else if target_position < MIN_POSITION then (-1, [])
  else
    let ev0 := Ev.sdoRead 0x6064 0 env.read_pos_before
    let ev1 := Ev.sdoWrite 0x607A 0 (u32ofInt target_position) env.write_target_ok
    if !env.write_target_ok then (-1, [ev0, ev1])
    else
      let ev2 := Ev.sdoRead 0x6040 0 env.read_control_word
      match env.read_control_word with
      | none => (-1, [ev0, ev1, ev2])
      | some cwv =>
        let current_control_word := cwv % 2 ^ 32
        let new_control_word := current_control_word ||| 0x10
        let ev3 := Ev.sdoWrite 0x6040 0 new_control_word env.write_set_ok
        if !env.write_set_ok then (-1, [ev0, ev1, ev2, ev3])
        else
          let p1 := pollLoop env.status_ack_poll bit12_set 0 50
          if p1.1 ≥ 50 then (-1, [ev0, ev1, ev2, ev3] ++ p1.2)
          else
            let release_control_word := new_control_word &&& 0xFFFFFFEF
            let ev4 := Ev.sdoWrite 0x6040 0 release_control_word env.write_release_ok
            if !env.write_release_ok then
              (-1, [ev0, ev1, ev2, ev3] ++ p1.2 ++ [ev4])
            else
              let p2 := pollLoop env.status_rel_poll (fun s => s &&& 0x1000 == 0) 0 50
              (0, [ev0, ev1, ev2, ev3] ++ p1.2 ++ [ev4] ++ p2.2 ++
                  [Ev.sleepUs 1000000, Ev.sdoRead 0x6064 0 env.read_pos_after])

/-- Values written to the control word 0x6040 in an event list, in order. -/
def cwWrites (evs : List Ev) : List Nat :=
  evs.filterMap fun e =>
    match e with
    | Ev.sdoWrite i _ v _ => if i = 0x6040 then some v else none
    | _ => none

/-- Number of SDO read transactions in an event list. -/
def countReads (evs : List Ev) : Nat :=
  (evs.filter fun e =>
    match e with
    | Ev.sdoRead _ _ _ => true
    | _ => false).length

/-- Success flags of the eight SDO writes of init_pp_mode, in program
order. -/
structure InitEnv where
  w_mode_ok : Bool
  w_vel_ok : Bool
  w_acc_ok : Bool
  w_dec_ok : Bool
  w_fault_reset_ok : Bool
  w_shutdown_ok : Bool
  w_switch_on_ok : Bool
  w_enable_ok : Bool
deriving DecidableEq, Repr

/-- Embedding of init_pp_mode: the int return value, the value of the
motor_enabled global when the function returns, and the bus events.  Each
failed write only prints a failed-try-again message and the sequence
continues (no retry is issued); at the end motor_enabled is set to 1 and 0
is returned, whatever the write outcomes were. -/
def init_pp_mode (env : InitEnv) (node : Nat) : Int × Nat × List Ev :=
  let evs :=
    [Ev.nmt 0x02 node, Ev.sleepUs 200000,
     Ev.nmt 0x82 node, Ev.sleepUs 1000000,
     Ev.nmt 0x01 node, Ev.sleepUs 1000000,
     Ev.sdoWrite 0x6060 0 0x01 env.w_mode_ok, Ev.sleepUs 200000,
     Ev.sdoWrite 0x6081 0 5566 env.w_vel_ok, Ev.sleepUs 200000,
     Ev.sdoWrite 0x6083 0 5566 env.w_acc_ok, Ev.sleepUs 200000,
     Ev.sdoWrite 0x6084 0 5566 env.w_dec_ok, Ev.sleepUs 200000,
     Ev.sdoWrite 0x6040 0 0x80 env.w_fault_reset_ok, Ev.sleepUs 500000,
     Ev.sdoWrite 0x6040 0 0x06 env.w_shutdown_ok, Ev.sleepUs 500000,
     Ev.sdoWrite 0x6040 0 0x07 env.w_switch_on_ok, Ev.sleepUs 500000,
     Ev.sdoWrite 0x6040 0 0x0F env.w_enable_ok, Ev.sleepUs 500000]
  let motor_enabled := 1
  (0, motor_enabled, evs)

/-- Commands of the main loop that touch the drive over SDO, with the
outcome of their bus interactions: PP-mode initialization, the stop command
(a control-word write), the three profile-parameter commands, and a position
move. -/
inductive MainCmd where
  | cmdInit (env : InitEnv)
  | cmdStop (ok : Bool)
  | cmdSetVelocity (v : Nat) (ok : Bool)
  | cmdSetAcceleration (a : Nat) (ok : Bool)
  | cmdSetDeceleration (d : Nat) (ok : Bool)
  | cmdMove (env : MoveEnv) (target : Int)

/-- Effect of one main-loop command on the motor_enabled global.  Only
init_pp_mode assigns it (to 1, at the end of the sequence); no other
handler, and in particular no failing write_sdo call, ever touches it — the
source contains no assignment motor_enabled = 0. -/
def motor_enabled_step (flag : Nat) : MainCmd → Nat
  | MainCmd.cmdInit env => (init_pp_mode env MOTOR_NODE_ID).2.1
  | MainCmd.cmdStop _ => flag
  | MainCmd.cmdSetVelocity _ _ => flag
  | MainCmd.cmdSetAcceleration _ _ => flag
  | MainCmd.cmdSetDeceleration _ _ => flag
  | MainCmd.cmdMove _ _ => flag

/-- Value of the motor_enabled global after a sequence of main-loop
commands. -/
def run_main (flag : Nat) (cmds : List MainCmd) : Nat :=
  cmds.foldl motor_enabled_step flag

/-- Probe test of one candidate node of auto_detect_motor: did the node
answer with an accepted CiA402 device type? -/
def probe_hit (resp : Nat → Option Nat) (n : Nat) : Bool :=
  match resp n with
  | some t => is_motor_device_type t
  | none => false

/-- Invariant of the EDS parser state used for the control-word size
theorem: while the current section is 0x6040 the recorded data type can
only be 0 (reset) or the forced UNSIGNED16, and every dictionary entry for
index 0x6040 has size 2. -/
def ParserCWInv (st : ParseState) : Prop :=
  (st.current_index = 0x6040 → st.current_data_type = 0 ∨ st.current_data_type = 6) ∧
  ∀ e ∈ st.dict, e.index = 0x6040 → e.data_size = 2

/-- Capacity invariant of the parser state: at most 100 entries. -/
def ParserCapInv (st : ParseState) : Prop := st.dict.length ≤ 100

/-- EDS text declaring the control word 0x6040 with DataType UNSIGNED32: a
concrete input on which the declared size (4) and the stored size (2)
disagree. -/
def eds_cw_lines : List (List Char) :=
  ["[6040]".toList, "DataType=0x0007".toList, "AccessType=rww".toList]

/-- Frame with the COB-ID of node 1, skipped by a transaction of node 2. -/
def mismatched_frame : can_frame :=
  { can_id := 0x581, data := [0x43, 0x00, 0x10, 0x00, 0x34, 0x12, 0x00, 0x00] }

/-- Matching upload-response frame for node 2 carrying payload 0x1234. -/
def upload_frame : can_frame :=
  { can_id := 0x582, data := [0x43, 0x00, 0x10, 0x00, 0x34, 0x12, 0x00, 0x00] }

/-- Matching SDO abort frame for node 2 with abort code 0x06010000
little-endian in bytes 4..7. -/
def abort_frame : can_frame :=
  { can_id := 0x582, data := [0x80, 0x40, 0x60, 0x00, 0x00, 0x00, 0x01, 0x06] }

/-- Move environment in which every transaction succeeds, bit 12 is seen
set at the first acknowledgment poll and clear at the first release poll. -/
def env_all_ok : MoveEnv :=
  { read_pos_before := some 0, write_target_ok := true,
    read_control_word := some 0x0F, write_set_ok := true,
    status_ack_poll := fun _ => some 0x1000, write_release_ok := true,
    status_rel_poll := fun _ => some 0, read_pos_after := some 0 }

/-- Move environment in which the status word never shows bit 12 set, so
the acknowledgment poll times out. -/
def env_ack_timeout : MoveEnv :=
  { env_all_ok with status_ack_poll := fun _ => some 0 }

/-- Move environment in which the acknowledgment succeeds at once but the
status word never shows bit 12 clear, so the release poll times out. -/
def env_rel_timeout : MoveEnv :=
  { env_all_ok with status_rel_poll := fun _ => some 0x1000 }

/-- Initialization environment in which every SDO write succeeds. -/
def init_env_ok : InitEnv :=
  { w_mode_ok := true, w_vel_ok := true, w_acc_ok := true, w_dec_ok := true,
    w_fault_reset_ok := true, w_shutdown_ok := true, w_switch_on_ok := true,
    w_enable_ok := true }

/-- Command byte of a write request, read off the definition. -/
theorem send_sdo_request_byte0 (dict : List object_dict_entry_t)
    (node index subindex data : Nat) :
    (send_sdo_request dict node index subindex data true).byte 0 =
      if get_object_size dict (index % 2 ^ 16) (subindex % 2 ^ 8) = 1 then 0x2F
      else if get_object_size dict (index % 2 ^ 16) (subindex % 2 ^ 8) = 2 then 0x2B
      else 0x23 := rfl

/-- C1: every SDO request frame built by send_sdo_request is framed as
claimed: for a write the command byte is 0x2F / 0x2B / 0x23 when
get_object_size yields 1 / 2 / 4, bytes 1-2 carry the index little-endian,
byte 3 the subindex, bytes 4-7 the 32-bit payload little-endian zero-padded
regardless of declared size; for a read the command byte is 0x40 with the
same index/subindex encoding and zero bytes 4-7 (also in the quick_scan
variant). -/
theorem sdo_request_framing (dict : List object_dict_entry_t)
    (node index subindex data : Nat) :
    (get_object_size dict (index % 2 ^ 16) (subindex % 2 ^ 8) = 1 →
      (send_sdo_request dict node index subindex data true).byte 0 = 0x2F) ∧
    (get_object_size dict (index % 2 ^ 16) (subindex % 2 ^ 8) = 2 →
      (send_sdo_request dict node index subindex data true).byte 0 = 0x2B) ∧
    (get_object_size dict (index % 2 ^ 16) (subindex % 2 ^ 8) = 4 →
      (send_sdo_request dict node index subindex data true).byte 0 = 0x23) ∧
    ((send_sdo_request dict node index subindex data true).data.drop 1 =
      [index % 2 ^ 16 % 256, index % 2 ^ 16 / 256 % 256, subindex % 2 ^ 8,
       data % 2 ^ 32 % 256, data % 2 ^ 32 / 2 ^ 8 % 256,
       data % 2 ^ 32 / 2 ^ 16 % 256, data % 2 ^ 32 / 2 ^ 24 % 256]) ∧
    ((send_sdo_request dict node index subindex data false).data =
      [0x40, index % 2 ^ 16 % 256, index % 2 ^ 16 / 256 % 256,
       subindex % 2 ^ 8, 0, 0, 0, 0]) ∧
    ((qs_send_sdo_request node index subindex).data =
      [0x40, index % 2 ^ 16 % 256, index % 2 ^ 16 / 256 % 256,
       subindex % 2 ^ 8, 0, 0, 0, 0]) := by
  refine ⟨fun h => ?_, fun h => ?_, fun h => ?_, rfl, rfl, rfl⟩ <;>
    rw [send_sdo_request_byte0, h] <;> simp

/-- Witness for C1 at a concrete input: the profile-velocity object has
size 4 under the empty dictionary and its write request uses command byte
0x23. -/
theorem sdo_request_framing_witness :
    get_object_size [] (0x6081 % 2 ^ 16) (0 % 2 ^ 8) = 4 ∧
    (send_sdo_request [] 2 0x6081 0 5566 true).byte 0 = 0x23 :=
  ⟨by decide, (sdo_request_framing [] 2 0x6081 0 5566).2.2.1 (by decide)⟩

/-- C2: receive_sdo_response accepts a frame only when its COB-ID is 0x580
plus the node ID and its masked command byte is 0x40, 0x60 or 0x80; every
other frame is skipped so polling continues with the remaining frames; an
accepted 0x40 frame yields the little-endian payload of bytes 4-7, an
accepted 0x60 frame yields success with zeroed data, an accepted 0x80 frame
ends the transaction; the quick_scan variant skips everything except a
matching upload response. -/
theorem sdo_response_matching :
    (∀ node f rest, ¬(f.can_id = 0x580 + node ∧
        (f.byte 0 &&& 0xE0 = 0x40 ∨ f.byte 0 &&& 0xE0 = 0x60 ∨
         f.byte 0 &&& 0xE0 = 0x80)) →
      receive_sdo_response node (f :: rest) = receive_sdo_response node rest) ∧
    (∀ node f rest, f.can_id = 0x580 + node → f.byte 0 &&& 0xE0 = 0x40 →
      receive_sdo_response node (f :: rest) = (0, some (leWord f))) ∧
    (∀ node f rest, f.can_id = 0x580 + node → f.byte 0 &&& 0xE0 = 0x60 →
      receive_sdo_response node (f :: rest) = (0, some 0)) ∧
    (∀ node f rest, f.can_id = 0x580 + node → f.byte 0 &&& 0xE0 = 0x80 →
      receive_sdo_response node (f :: rest) = (-1, none)) ∧
    (∀ node f rest, ¬(f.can_id = 0x580 + node ∧ f.byte 0 &&& 0xE0 = 0x40) →
      qs_receive_sdo_response node (f :: rest) = qs_receive_sdo_response node rest) ∧
    (∀ node f rest, f.can_id = 0x580 + node → f.byte 0 &&& 0xE0 = 0x40 →
      qs_receive_sdo_response node (f :: rest) = (0, some (leWord f))) := by
  refine ⟨?_, ?_, ?_, ?_, ?_, ?_⟩
  · intro node f rest h
    by_cases hc : f.can_id = 0x580 + node
    · have h1 : ¬f.byte 0 &&& 0xE0 = 0x40 := fun d => h ⟨hc, Or.inl d⟩
      have h2 : ¬f.byte 0 &&& 0xE0 = 0x60 := fun d => h ⟨hc, Or.inr (Or.inl d)⟩
      have h3 : ¬f.byte 0 &&& 0xE0 = 0x80 := fun d => h ⟨hc, Or.inr (Or.inr d)⟩
      simp [receive_sdo_response, hc, h1, h2, h3]
    · simp [receive_sdo_response, hc]
  · intro node f rest h1 h2
    simp [receive_sdo_response, h1, h2]
  · intro node f rest h1 h2
    have h3 : ¬f.byte 0 &&& 0xE0 = 0x40 := by rw [h2]; decide
    simp [receive_sdo_response, h1, h2, h3]
  · intro node f rest h1 h2
    have h3 : ¬f.byte 0 &&& 0xE0 = 0x40 := by rw [h2]; decide
    have h4 : ¬f.byte 0 &&& 0xE0 = 0x60 := by rw [h2]; decide
    simp [receive_sdo_response, h1, h2, h3, h4]
  · intro node f rest h
    by_cases hc : f.can_id = 0x580 + node
    · have h1 : ¬f.byte 0 &&& 0xE0 = 0x40 := fun d => h ⟨hc, d⟩
      simp [qs_receive_sdo_response, hc, h1]
    · simp [qs_receive_sdo_response, hc]
  · intro node f rest h1 h2
    simp [qs_receive_sdo_response, h1, h2]

/-- Witness for C2 at a concrete input: a frame with the wrong COB-ID is
skipped and the following matching upload frame is decoded. -/
theorem sdo_response_matching_witness :
    receive_sdo_response 2 [mismatched_frame, upload_frame] = (0, some 0x1234) := by
  have h := sdo_response_matching
  rw [h.1 2 mismatched_frame [upload_frame] (by decide)]
  rw [h.2.1 2 upload_frame [] (by decide) (by decide)]
  decide

/-- C3 counterexample: at the concrete abort frame (abort code 0x06010000
in bytes 4-7) the transaction result is byte-for-byte the timeout result:
the same int return, no data stored, and write_sdo reports the same -1 as
on timeout — so the abort outcome is not distinguishable from the timeout
outcome by the caller and does not carry the abort code. -/
theorem sdo_abort_indistinguishable_cex :
    receive_sdo_response 2 [abort_frame] = receive_sdo_response 2 [] ∧
    (receive_sdo_response 2 [abort_frame]).2 = none ∧
    (write_sdo [] 2 0x6040 0 0x06 [abort_frame]).2 =
      (write_sdo [] 2 0x6040 0 0x06 []).2 := by decide

/-- C3 amended: an accepted abort frame makes receive_sdo_response return
-1 with nothing stored in the data out-parameter, identical to the timeout
return, and write_sdo reports -1 in both cases; the abort code of bytes 4-7
is only printed as debug output. -/
theorem sdo_abort_result_amended :
    ∀ node f rest, f.can_id = 0x580 + node → f.byte 0 &&& 0xE0 = 0x80 →
      receive_sdo_response node (f :: rest) = (-1, none) ∧
      receive_sdo_response node [] = (-1, none) ∧
      ∀ dict index subindex d,
        (write_sdo dict node index subindex d (f :: rest)).2 = -1 ∧
        (write_sdo dict node index subindex d []).2 = -1 := by
  intro node f rest h1 h2
  have h3 : ¬f.byte 0 &&& 0xE0 = 0x40 := by rw [h2]; decide
  have h4 : ¬f.byte 0 &&& 0xE0 = 0x60 := by rw [h2]; decide
  have hr : receive_sdo_response node (f :: rest) = (-1, none) := by
    simp [receive_sdo_response, h1, h2, h3, h4]
  refine ⟨hr, rfl, fun dict index subindex d => ⟨?_, ?_⟩⟩
  · simp [write_sdo, hr]
  · simp [write_sdo, receive_sdo_response]

/-- Witness for C3 amended at the concrete abort frame. -/
theorem sdo_abort_result_amended_witness :
    receive_sdo_response 2 [abort_frame] = (-1, none) :=
  (sdo_abort_result_amended 2 abort_frame [] (by decide) (by decide)).1

/-- C6 counterexample: an EDS text declaring object 0x6040 with DataType
0x0007 (UNSIGNED32, declared size 4) is parsed into an entry of size 2, and
get_object_size returns 2, not the size derived from the declared
DataType. -/
theorem object_size_declared_cex :
    parse_eds_file eds_cw_lines =
      [{ index := 0x6040, subindex := 0, data_size := 2 }] ∧
    get_object_size (parse_eds_file eds_cw_lines) 0x6040 0 = 2 ∧
    get_data_type_size 0x0007 = 4 := by decide

/-- C7: evaluation of the data-type-to-size mapping of the source at every
code the claim names: types 0x0001, 0x0002, 0x0005 give 1; 0x0003, 0x0006
give 2; 0x0004, 0x0007 give 4; but 0x0008 — labelled REAL32 by the source
comment, a 32-bit type — gives 8, contradicting the claimed 4; other codes
give the default 2. -/
theorem data_type_size_eval :
    get_data_type_size 0x0001 = 1 ∧ get_data_type_size 0x0002 = 1 ∧
    get_data_type_size 0x0003 = 2 ∧ get_data_type_size 0x0004 = 4 ∧
    get_data_type_size 0x0005 = 1 ∧ get_data_type_size 0x0006 = 2 ∧
    get_data_type_size 0x0007 = 4 ∧ get_data_type_size 0x0008 = 8 ∧
    get_data_type_size 0x0009 = 2 ∧ get_data_type_size 0x0011 = 2 ∧
    get_data_type_size 0 = 2 := by decide

/-- C10 counterexample: after a successful init_pp_mode (flag set to 1) a
failing control-word write (the stop command with a failed transaction)
leaves motor_enabled at 1 — the flag is not invalidated by the write
failure. -/
theorem motor_enabled_not_invalidated_cex :
    run_main 0 [MainCmd.cmdInit init_env_ok, MainCmd.cmdStop false] = 1 ∧
    motor_enabled_step 1 (MainCmd.cmdStop false) = 1 := by decide

/-- C10 amended: init_pp_mode returns 0 and sets motor_enabled to 1
whatever the outcome of its writes; every other command handler leaves the
flag unchanged (no write failure ever touches it), so once the flag is 1 it
stays 1 under every further command sequence. -/
theorem motor_enabled_sticky_amended :
    (∀ env node, (init_pp_mode env node).1 = 0 ∧ (init_pp_mode env node).2.1 = 1) ∧
    (∀ flag cmd, motor_enabled_step flag cmd =
      (match cmd with | MainCmd.cmdInit _ => 1 | _ => flag)) ∧
    (∀ cmds, run_main 1 cmds = 1) := by
  refine ⟨fun env node => ⟨rfl, rfl⟩, fun flag cmd => ?_, fun cmds => ?_⟩
  · cases cmd <;> rfl
  · induction cmds with
    | nil => rfl
    | cons c cs ih =>
      have hstep : motor_enabled_step 1 c = 1 := by cases c <;> rfl
      simpa [run_main, List.foldl, hstep] using ih

/-- Preservation of the control-word invariant by one parsed line: section
headers reset the data type to 0, a DataType line under section 0x6040 is
forced to UNSIGNED16, and a completed entry for 0x6040 can therefore only
be appended with size 2. -/
theorem processLine_cw_inv (st : ParseState) (line : List Char)
    (h : ParserCWInv st) : ParserCWInv (processLine st line) := by
  obtain ⟨hdt, hdict⟩ := h
  cases hA : isSectionHeader line with
  | true =>
    cases hB : hasSubMarker (takeUntilChar ']' line.tail) with
    | true =>
      constructor
      · intro _
        left
        simp [processLine, hA, hB]
      · intro e he
        simp [processLine, hA, hB] at he
        exact hdict e he
    | false =>
      constructor
      · intro _
        left
        simp [processLine, hA, hB]
      · intro e he
        simp [processLine, hA, hB] at he
        exact hdict e he
  | false =>
    cases hB2 : isDataTypeLine st line with
    | true =>
      constructor
      · intro hidx
        have hidx' : st.current_index = 0x6040 := by
          simpa [processLine, hA, hB2] using hidx
        right
        simp [processLine, hA, hB2, hidx']
      · intro e he
        simp [processLine, hA, hB2] at he
        exact hdict e he
    | false =>
      cases hB3 : isAccessTypeLine st line with
      | true =>
        cases hE : entryFits st with
        | true =>
          constructor
          · intro hidx
            have hidx' : st.current_index = 0x6040 := by
              simpa [processLine, hA, hB2, hB3, hE] using hidx
            simpa [processLine, hA, hB2, hB3, hE] using hdt hidx'
          · intro e he hidx6040
            simp [processLine, hA, hB2, hB3, hE] at he
            simp only [entryFits, Bool.and_eq_true, decide_eq_true_eq] at hE
            rcases he with hmem | heq
            · exact hdict e hmem hidx6040
            · rw [heq] at hidx6040 ⊢
              have hidx : st.current_index = 0x6040 := hidx6040
              rcases hdt hidx with h0 | h6
              · omega
              · show get_data_type_size st.current_data_type = 2
                rw [h6]
                decide
        | false =>
          constructor
          · intro hidx
            have hidx' : st.current_index = 0x6040 := by
              simpa [processLine, hA, hB2, hB3, hE] using hidx
            simpa [processLine, hA, hB2, hB3, hE] using hdt hidx'
          · intro e he
            simp [processLine, hA, hB2, hB3, hE] at he
            exact hdict e he
      | false =>
        constructor
        · intro hidx
          have hidx' : st.current_index = 0x6040 := by
            simpa [processLine, hA, hB2, hB3] using hidx
          simpa [processLine, hA, hB2, hB3] using hdt hidx'
        · intro e he
          simp [processLine, hA, hB2, hB3] at he
          exact hdict e he

/-- Preservation of the control-word invariant by the whole fold. -/
theorem foldl_cw_inv (lines : List (List Char)) :
    ∀ st, ParserCWInv st → ParserCWInv (lines.foldl processLine st) := by
  induction lines with
  | nil => exact fun st h => h
  | cons l ls ih => exact fun st h => ih _ (processLine_cw_inv st l h)

/-- C8: get_object_size returns 2 for the control word 0x6040 on every
possible EDS input and every subindex — the parser forces the UNSIGNED16
type for entries of index 0x6040 and the fallback also answers 2. -/
theorem control_word_size_always_two (lines : List (List Char)) (subindex : Nat) :
    get_object_size (parse_eds_file lines) 0x6040 subindex = 2 := by
  have hinv : ParserCWInv (lines.foldl processLine initParseState) :=
    foldl_cw_inv lines initParseState
      ⟨fun _ => Or.inl rfl, fun e he => absurd he (List.not_mem_nil e)⟩
  cases hf : (parse_eds_file lines).find?
      (fun e => e.index = 0x6040 && e.subindex = subindex) with
  | none => simp [get_object_size, hf]
  | some e =>
    have hmem : e ∈ parse_eds_file lines := List.mem_of_find?_eq_some hf
    have hpred := List.find?_some hf
    simp only [Bool.and_eq_true, decide_eq_true_eq] at hpred
    have h2 : e.data_size = 2 := hinv.2 e hmem hpred.1
    simp [get_object_size, hf, h2]

/-- Characterization of the probe loop of auto_detect_motor: the result is
the first candidate that answers with an accepted device type, and the
probed candidates are exactly those up to and including that first match
(all of them when there is none). -/
theorem detect_loop_char (resp : Nat → Option Nat) (ids : List Nat) :
    detect_loop resp ids =
      (ids.find? (probe_hit resp),
       ids.takeWhile (fun n => !probe_hit resp n) ++
         ((ids.find? (probe_hit resp)).map (fun n => [n])).getD []) := by
  induction ids with
  | nil => rfl
  | cons n rest ih =>
    cases hr : resp n with
    | none =>
      have hph : probe_hit resp n = false := by simp [probe_hit, hr]
      simp [detect_loop, probe_outcome, hr, ih, List.find?_cons, hph]
    | some t =>
      cases hm : is_motor_device_type t with
      | true =>
        have hph : probe_hit resp n = true := by simp [probe_hit, hr, hm]
        simp [detect_loop, probe_outcome, hr, hm, List.find?_cons, hph]
      | false =>
        have hph : probe_hit resp n = false := by simp [probe_hit, hr, hm]
        simp [detect_loop, probe_outcome, hr, hm, ih, List.find?_cons, hph]

/-- C9: auto_detect_motor probes the candidates 1..20 in ascending order,
stops at the first candidate whose device type is in the accepted CiA402
set and returns it (probing nothing further); when the range is exhausted
it returns the default MOTOR_NODE_ID with detected_motor_id left 0; every
probe is the upload request for object 0x1000 subindex 0. -/
theorem auto_detect_first_match (resp : Nat → Option Nat) :
    (auto_detect_motor resp).ret =
      (((List.range' 1 20).find? (probe_hit resp)).getD MOTOR_NODE_ID) ∧
    (auto_detect_motor resp).detected_motor_id =
      (((List.range' 1 20).find? (probe_hit resp)).getD 0) ∧
    (auto_detect_motor resp).probed =
      (List.range' 1 20).takeWhile (fun n => !probe_hit resp n) ++
        ((((List.range' 1 20).find? (probe_hit resp)).map (fun n => [n])).getD []) ∧
    (∀ n, detect_probe_frame n = send_sdo_request [] n 0x1000 0 0 false) := by
  have h := detect_loop_char resp (List.range' 1 20)
  cases hf : (List.range' 1 20).find? (probe_hit resp) with
  | none =>
    rw [hf] at h
    simp [auto_detect_motor, h, hf]
    exact fun n => rfl
  | some m =>
    rw [hf] at h
    simp [auto_detect_motor, h, hf]
    exact fun n => rfl

/-- First-match dictionary lookup dichotomy of one parsed line: either the
dictionary is unchanged, or exactly one entry with the recorded index,
subindex and data-type size is appended, and then the recorded data type
was nonzero and the dictionary was below its 100-entry capacity. -/
theorem processLine_dict_cases (st : ParseState) (line : List Char) :
    (processLine st line).dict = st.dict ∨
    ((processLine st line).dict = st.dict ++
       [{ index := st.current_index, subindex := st.current_subindex,
          data_size := get_data_type_size st.current_data_type }] ∧
     0 < st.current_data_type ∧ st.dict.length < 100) := by
  cases hA : isSectionHeader line with
  | true =>
    cases hB : hasSubMarker (takeUntilChar ']' line.tail) with
    | true => left; simp [processLine, hA, hB]
    | false => left; simp [processLine, hA, hB]
  | false =>
    cases hB2 : isDataTypeLine st line with
    | true => left; simp [processLine, hA, hB2]
    | false =>
      cases hB3 : isAccessTypeLine st line with
      | true =>
        cases hE : entryFits st with
        | true =>
          right
          constructor
          · simp [processLine, hA, hB2, hB3, hE]
          · simpa [entryFits] using hE
        | false => left; simp [processLine, hA, hB2, hB3, hE]
      | false => left; simp [processLine, hA, hB2, hB3]

/-- Capacity bound of the parsed dictionary. -/
theorem parse_length_le (lines : List (List Char)) :
    (parse_eds_file lines).length ≤ 100 := by
  suffices h : ∀ st : ParseState, st.dict.length ≤ 100 →
      (lines.foldl processLine st).dict.length ≤ 100 by
    exact h initParseState (by simp [initParseState])
  induction lines with
  | nil => exact fun st h => h
  | cons l ls ih =>
    intro st h
    refine ih _ ?_
    rcases processLine_dict_cases st l with hc | ⟨hc, _, hlen⟩
    · rw [hc]; exact h
    · rw [hc]; simp; omega

/-- C6 amended: get_object_size returns the size of the first parsed entry
for the pair when one exists; an entry is only appended while the
dictionary is below 100 entries and its declared type parsed nonzero, with
the size computed from the recorded data type — which the parser forces to
UNSIGNED16 for index 0x6040 — so the declared size is returned only for
the first entry of a pair among the first 100 completed ones and never for
0x6040. -/
theorem object_size_lookup_amended :
    (∀ (dict : List object_dict_entry_t) (index subindex : Nat) e,
        dict.find? (fun x => x.index = index && x.subindex = subindex) = some e →
        get_object_size dict index subindex = e.data_size) ∧
    (∀ lines, (parse_eds_file lines).length ≤ 100) ∧
    (∀ st line, (processLine st line).dict = st.dict ∨
       ((processLine st line).dict = st.dict ++
          [{ index := st.current_index, subindex := st.current_subindex,
             data_size := get_data_type_size st.current_data_type }] ∧
        0 < st.current_data_type ∧ st.dict.length < 100)) := by
  refine ⟨fun dict index subindex e hf => ?_, parse_length_le, processLine_dict_cases⟩
  simp [get_object_size, hf]

/-- Witness for C6 amended at the concrete control-word EDS text: the first
(and only) parsed entry is found and its stored size is returned. -/
theorem object_size_lookup_amended_witness :
    (parse_eds_file eds_cw_lines).find?
        (fun x => x.index = 0x6040 && x.subindex = 0) =
      some { index := 0x6040, subindex := 0, data_size := 2 } ∧
    get_object_size (parse_eds_file eds_cw_lines) 0x6040 0 =
      ({ index := 0x6040, subindex := 0, data_size := 2 } : object_dict_entry_t).data_size :=
  ⟨by decide,
   object_size_lookup_amended.1 (parse_eds_file eds_cw_lines) 0x6040 0
     { index := 0x6040, subindex := 0, data_size := 2 } (by decide)⟩

/-- Status reads and sleeps are the only events a poll loop emits: it never
writes the control word. -/
theorem pollLoop_no_cw_writes (status : Nat → Option Nat) (hit : Nat → Bool) :
    ∀ fuel count, cwWrites (pollLoop status hit count fuel).2 = [] := by
  intro fuel
  induction fuel with
  | zero => intro count; rfl
  | succ f ih =>
    intro count
    cases hh : poll_hit status hit count with
    | true => simp [pollLoop, hh, cwWrites]
    | false =>
      have := ih (count + 1)
      simp [pollLoop, hh, cwWrites] at this ⊢
      exact this

/-- No events, no control-word writes. -/
theorem cwWrites_nil : cwWrites ([] : List Ev) = [] := rfl

/-- Control-word writes distribute over appended event lists. -/
theorem cwWrites_append (l₁ l₂ : List Ev) :
    cwWrites (l₁ ++ l₂) = cwWrites l₁ ++ cwWrites l₂ := by
  simp [cwWrites, List.filterMap_append]

/-- An SDO read contributes no control-word write. -/
theorem cwWrites_cons_read (i s : Nat) (r : Option Nat) (l : List Ev) :
    cwWrites (Ev.sdoRead i s r :: l) = cwWrites l := rfl

/-- A sleep contributes no control-word write. -/
theorem cwWrites_cons_sleep (us : Nat) (l : List Ev) :
    cwWrites (Ev.sleepUs us :: l) = cwWrites l := rfl

/-- An NMT command contributes no control-word write. -/
theorem cwWrites_cons_nmt (c n : Nat) (l : List Ev) :
    cwWrites (Ev.nmt c n :: l) = cwWrites l := rfl

/-- An SDO write contributes its value exactly when it addresses 0x6040. -/
theorem cwWrites_cons_write (i s v : Nat) (ok : Bool) (l : List Ev) :
    cwWrites (Ev.sdoWrite i s v ok :: l) =
      if i = 0x6040 then v :: cwWrites l else cwWrites l := by
  by_cases h : i = 0x6040 <;> simp [cwWrites, List.filterMap_cons, h]

/-- A poll loop that never observes its exit condition within the fuel runs
the counter up to the cap. -/
theorem pollLoop_timeout (status : Nat → Option Nat) (hit : Nat → Bool) :
    ∀ fuel count, (∀ k, count ≤ k → k < count + fuel → poll_hit status hit k = false) →
      (pollLoop status hit count fuel).1 = count + fuel := by
  intro fuel
  induction fuel with
  | zero => intro count _; simp [pollLoop]
  | succ f ih =>
    intro count hmiss
    have h0 : poll_hit status hit count = false := hmiss count le_rfl (by omega)
    have hrest := ih (count + 1) (fun k hk1 hk2 => hmiss k (by omega) (by omega))
    have hstep : (pollLoop status hit count (f + 1)).1 =
        (pollLoop status hit (count + 1) f).1 := by
      simp [pollLoop, h0]
    omega

/-- A poll loop whose exit condition holds at some index within the fuel
stops strictly below the cap. -/
theorem pollLoop_hit_lt (status : Nat → Option Nat) (hit : Nat → Bool) :
    ∀ fuel count k, count ≤ k → k < count + fuel → poll_hit status hit k = true →
      (pollLoop status hit count fuel).1 < count + fuel := by
  intro fuel
  induction fuel with
  | zero => intro count k h1 h2 _; omega
  | succ f ih =>
    intro count k h1 h2 hhit
    cases h0 : poll_hit status hit count with
    | true =>
      have hstep : (pollLoop status hit count (f + 1)).1 = count := by
        simp [pollLoop, h0]
      omega
    | false =>
      have hk1 : count + 1 ≤ k := by
        rcases Nat.eq_or_lt_of_le h1 with heq | hlt
        · subst heq
          simp [h0] at hhit
        · omega
      have := ih (count + 1) k hk1 (by omega) hhit
      have hstep : (pollLoop status hit count (f + 1)).1 =
          (pollLoop status hit (count + 1) f).1 := by
        simp [pollLoop, h0]
      omega

/-- Setting bit 4 by the bitwise or of the source sets exactly bit 4. -/
theorem set_bit4_testBit (cw : Nat) : (cw ||| 0x10).testBit 4 = true := by
  have h16 : (0x10 : Nat).testBit 4 = true := by decide
  simp [Nat.testBit_or, h16]

/-- Setting bit 4 leaves every other bit unchanged. -/
theorem set_bit4_other (cw i : Nat) (hi : i ≠ 4) :
    (cw ||| 0x10).testBit i = cw.testBit i := by
  have h16 : (0x10 : Nat).testBit i = false := by
    have h : (0x10 : Nat) = 2 ^ 4 := by norm_num
    rw [h]
    exact Nat.testBit_two_pow_of_ne (Ne.symm hi)
  simp [Nat.testBit_or, h16]

/-- Clearing bit 4 by the bitwise and of the source clears bit 4. -/
theorem clear_bit4_testBit (y : Nat) : (y &&& 0xFFFFFFEF).testBit 4 = false := by
  have hm : (0xFFFFFFEF : Nat).testBit 4 = false := by decide
  simp [Nat.testBit_and, hm]

/-- Clearing bit 4 of a 32-bit word leaves every other bit unchanged. -/
theorem clear_bit4_other (y i : Nat) (hy : y < 2 ^ 32) (hi : i ≠ 4) :
    (y &&& 0xFFFFFFEF).testBit i = y.testBit i := by
  rcases Nat.lt_or_ge i 32 with h32 | h32
  · have hm : (0xFFFFFFEF : Nat).testBit i = true := by
      have hmask : (0xFFFFFFEF : Nat) = (2 ^ 32 - 1) ^^^ 2 ^ 4 := by decide
      rw [hmask, Nat.testBit_xor, Nat.testBit_two_pow_sub_one, Nat.testBit_two_pow]
      simp [h32, Ne.symm hi]
    simp [Nat.testBit_and, hm]
  · have hyi : y < 2 ^ i :=
      lt_of_lt_of_le hy (Nat.pow_le_pow_right (by norm_num) h32)
    have h1 : y.testBit i = false := Nat.testBit_lt_two_pow hyi
    have h2 : (y &&& 0xFFFFFFEF).testBit i = false :=
      Nat.testBit_lt_two_pow (lt_of_le_of_lt Nat.and_le_left hyi)
    rw [h1, h2]

/-- C4: in every successful run of execute_position_move the control word is
read, the set step writes exactly the value read with bit 4 forced to 1 and
every other bit unchanged, the release step writes the set value with bit 4
cleared and every other bit unchanged, and these two writes are the only
control-word writes of the handshake. -/
theorem move_handshake_rmw (env : MoveEnv) (target : Int)
    (h : (execute_position_move env target).1 = 0) :
    ∃ cwv, env.read_control_word = some cwv ∧
      cwWrites (execute_position_move env target).2 =
        [cwv % 2 ^ 32 ||| 0x10, (cwv % 2 ^ 32 ||| 0x10) &&& 0xFFFFFFEF] ∧
      (cwv % 2 ^ 32 ||| 0x10).testBit 4 = true ∧
      (∀ i, i ≠ 4 → (cwv % 2 ^ 32 ||| 0x10).testBit i = (cwv % 2 ^ 32).testBit i) ∧
      ((cwv % 2 ^ 32 ||| 0x10) &&& 0xFFFFFFEF).testBit 4 = false ∧
      (∀ i, i ≠ 4 → ((cwv % 2 ^ 32 ||| 0x10) &&& 0xFFFFFFEF).testBit i =
        (cwv % 2 ^ 32 ||| 0x10).testBit i) := by
  by_cases h1 : target > MAX_POSITION
  · simp [execute_position_move, h1] at h
  by_cases h2 : target < MIN_POSITION
  · simp [execute_position_move, h1, h2] at h
  cases h3 : env.write_target_ok with
  | false => simp [execute_position_move, h1, h2, h3] at h
  | true =>
  cases h4 : env.read_control_word with
  | none => simp [execute_position_move, h1, h2, h3, h4] at h
  | some cwv =>
  cases h5 : env.write_set_ok with
  | false => simp [execute_position_move, h1, h2, h3, h4, h5] at h
  | true =>
  by_cases h6 : (pollLoop env.status_ack_poll bit12_set 0 50).1 ≥ 50
  · simp [execute_position_move, h1, h2, h3, h4, h5, h6] at h
  cases h7 : env.write_release_ok with
  | false => simp [execute_position_move, h1, h2, h3, h4, h5, h6, h7] at h
  | true =>
    have hor : (cwv % 2 ^ 32 ||| 0x10) < 2 ^ 32 :=
      Nat.or_lt_two_pow (Nat.mod_lt _ (by norm_num)) (by norm_num)
    refine ⟨cwv, rfl, ?_, set_bit4_testBit _, fun i hi => set_bit4_other _ i hi,
      clear_bit4_testBit _, fun i hi => clear_bit4_other _ i hor hi⟩
    have htr : (execute_position_move env target).2 =
        [Ev.sdoRead 0x6064 0 env.read_pos_before,
         Ev.sdoWrite 0x607A 0 (u32ofInt target) env.write_target_ok,
         Ev.sdoRead 0x6040 0 (some cwv),
         Ev.sdoWrite 0x6040 0 (cwv % 2 ^ 32 ||| 0x10) env.write_set_ok] ++
          (pollLoop env.status_ack_poll bit12_set 0 50).2 ++
          [Ev.sdoWrite 0x6040 0 ((cwv % 2 ^ 32 ||| 0x10) &&& 0xFFFFFFEF)
             env.write_release_ok] ++
          (pollLoop env.status_rel_poll (fun s => s &&& 0x1000 == 0) 0 50).2 ++
          [Ev.sleepUs 1000000, Ev.sdoRead 0x6064 0 env.read_pos_after] := by
      simp [execute_position_move, h1, h2, h3, h4, h5, h6, h7]
    rw [htr]
    simp [cwWrites_append, cwWrites_cons_read, cwWrites_cons_sleep,
      cwWrites_cons_write, cwWrites_nil, pollLoop_no_cw_writes]

/-- Witness for C4 at a concrete environment in which every transaction
succeeds and the handshake bits behave: the run succeeds and the theorem
applies. -/
theorem move_handshake_rmw_witness :
    (execute_position_move env_all_ok 1000).1 = 0 ∧
    (∃ cwv, env_all_ok.read_control_word = some cwv ∧
      cwWrites (execute_position_move env_all_ok 1000).2 =
        [cwv % 2 ^ 32 ||| 0x10, (cwv % 2 ^ 32 ||| 0x10) &&& 0xFFFFFFEF] ∧
      (cwv % 2 ^ 32 ||| 0x10).testBit 4 = true ∧
      (∀ i, i ≠ 4 → (cwv % 2 ^ 32 ||| 0x10).testBit i = (cwv % 2 ^ 32).testBit i) ∧
      ((cwv % 2 ^ 32 ||| 0x10) &&& 0xFFFFFFEF).testBit 4 = false ∧
      (∀ i, i ≠ 4 → ((cwv % 2 ^ 32 ||| 0x10) &&& 0xFFFFFFEF).testBit i =
        (cwv % 2 ^ 32 ||| 0x10).testBit i)) :=
  ⟨by decide, move_handshake_rmw env_all_ok 1000 (by decide)⟩

/-- C5: when none of the 50 acknowledgment polls observes bit 12 set, the
move returns -1 and never writes the release control word (at most the one
set write exists); a poll loop never reads more often than its fuel and all
its sleeps are 100 ms; and when the acknowledgment arrives within the bound
but every release poll times out, the move still returns success. -/
theorem move_poll_bound :
    (∀ env target,
       (∀ k, k < 50 → poll_hit env.status_ack_poll bit12_set k = false) →
       (execute_position_move env target).1 = -1 ∧
       (cwWrites (execute_position_move env target).2).length ≤ 1) ∧
    (∀ status hit count fuel,
       countReads (pollLoop status hit count fuel).2 ≤ fuel ∧
       (∀ us, Ev.sleepUs us ∈ (pollLoop status hit count fuel).2 → us = 100000)) ∧
    (∀ env target cwv,
       ¬target > MAX_POSITION → ¬target < MIN_POSITION →
       env.write_target_ok = true → env.read_control_word = some cwv →
       env.write_set_ok = true →
       (∃ k, k < 50 ∧ poll_hit env.status_ack_poll bit12_set k = true) →
       env.write_release_ok = true →
       (∀ k, k < 50 → poll_hit env.status_rel_poll (fun s => s &&& 0x1000 == 0) k = false) →
       (execute_position_move env target).1 = 0) := by
  refine ⟨?_, ?_, ?_⟩
  · intro env target hmiss
    have hto : (pollLoop env.status_ack_poll bit12_set 0 50).1 = 50 := by
      have := pollLoop_timeout env.status_ack_poll bit12_set 50 0
        (fun k _ hk2 => hmiss k (by omega))
      simpa using this
    by_cases h1 : target > MAX_POSITION
    · constructor <;>
        simp [execute_position_move, h1, cwWrites_nil]
    by_cases h2 : target < MIN_POSITION
    · constructor <;>
        simp [execute_position_move, h1, h2, cwWrites_nil]
    cases h3 : env.write_target_ok with
    | false =>
      constructor <;>
        simp [execute_position_move, h1, h2, h3, cwWrites_cons_read,
          cwWrites_cons_write, cwWrites_nil]
    | true =>
    cases h4 : env.read_control_word with
    | none =>
      constructor <;>
        simp [execute_position_move, h1, h2, h3, h4, cwWrites_cons_read,
          cwWrites_cons_write, cwWrites_nil]
    | some cwv =>
    cases h5 : env.write_set_ok with
    | false =>
      constructor <;>
        simp [execute_position_move, h1, h2, h3, h4, h5, cwWrites_cons_read,
          cwWrites_cons_write, cwWrites_nil]
    | true =>
      have h6 : (pollLoop env.status_ack_poll bit12_set 0 50).1 ≥ 50 := by omega
      have htr : (execute_position_move env target).2 =
          [Ev.sdoRead 0x6064 0 env.read_pos_before,
           Ev.sdoWrite 0x607A 0 (u32ofInt target) env.write_target_ok,
           Ev.sdoRead 0x6040 0 (some cwv),
           Ev.sdoWrite 0x6040 0 (cwv % 2 ^ 32 ||| 0x10) env.write_set_ok] ++
            (pollLoop env.status_ack_poll bit12_set 0 50).2 := by
        simp [execute_position_move, h1, h2, h3, h4, h5, h6]
      constructor
      · simp [execute_position_move, h1, h2, h3, h4, h5, h6]
      · rw [htr]
        simp [cwWrites_append, cwWrites_cons_read, cwWrites_cons_sleep,
          cwWrites_cons_write, cwWrites_nil, pollLoop_no_cw_writes]
  · intro status hit count fuel
    induction fuel generalizing count with
    | zero =>
      constructor
      · simp [pollLoop, countReads]
      · intro us hus
        simp [pollLoop] at hus
    | succ f ih =>
      cases hh : poll_hit status hit count with
      | true =>
        constructor
        · simp [pollLoop, hh, countReads]
        · intro us hus
          simp [pollLoop, hh] at hus
      | false =>
        constructor
        · have hc := (ih (count + 1)).1
          simp [pollLoop, hh, countReads] at hc ⊢
          omega
        · intro us hus
          simp [pollLoop, hh] at hus
          rcases hus with h100 | hmem
          · exact h100
          · exact (ih (count + 1)).2 us hmem
  · intro env target cwv h1 h2 h3 h4 h5 hex h7 _
    obtain ⟨k, hk, hhit⟩ := hex
    have hlt : (pollLoop env.status_ack_poll bit12_set 0 50).1 < 50 := by
      have := pollLoop_hit_lt env.status_ack_poll bit12_set 50 0 k (by omega) (by omega) hhit
      simpa using this
    have h6 : ¬(pollLoop env.status_ack_poll bit12_set 0 50).1 ≥ 50 := by omega
    simp [execute_position_move, h1, h2, h3, h4, h5, h6, h7]

/-- Witness for C5 at concrete environments: with the status word never
showing bit 12 the move fails with -1 and no release write; with the
acknowledgment arriving at once but bit 12 never clearing the move still
succeeds. -/
theorem move_poll_bound_witness :
    ((execute_position_move env_ack_timeout 1000).1 = -1 ∧
     (cwWrites (execute_position_move env_ack_timeout 1000).2).length ≤ 1) ∧
    (execute_position_move env_rel_timeout 1000).1 = 0 := by
  constructor
  · exact move_poll_bound.1 env_ack_timeout 1000 (by decide)
  · exact move_poll_bound.2.2 env_rel_timeout 1000 0x0F (by decide) (by decide)
      rfl rfl rfl ⟨0, by decide, by decide⟩ rfl (by decide)

end ERobDemo
